import Mathlib

/-!
Verification of `src/vsgGIS/gdal_utils.cpp` (vsgGIS).

The file shallowly embeds the two components of the source file:

* the Compatibility Checker (`compatibleDatasetProjections`,
  `compatibleDatasetProjectionsTransformAndSizes`), and
* the Typed Buffer Factory (`default_value`, `default_vec2/3/4`,
  `createImage2D`).

Modelling notes.  A `GDALDataset` is modelled as its address (`id`), the
pointer returned by `GetProjectionRef` (`projPtr`, `none` = NULL), the two
raster sizes, and the optional 6-component geotransform.  The string a
projection pointer refers to is given by an ambient memory map
`strMem : Nat → String`; pointer comparison is equality on `Option Nat`,
`std::strcmp == 0` is equality of the referenced strings.  Doubles are
modelled as `Rat` (no NaN in the inputs considered).  An out-of-range read
of a `vsg::dvec4` component (the source reads `value[4]`) yields whatever
sits in adjacent memory: that unspecified value is threaded through as an
explicit parameter `oob`.
-/

/-- Six-component affine geotransform, as filled in by `GetGeoTransform`. -/
structure GeoTransform where
  g0 : Rat
  g1 : Rat
  g2 : Rat
  g3 : Rat
  g4 : Rat
  g5 : Rat
deriving DecidableEq

/-- A GDAL dataset handle: address identity plus the values the source reads
through it.  `projPtr = none` models `GetProjectionRef()` returning NULL;
`geoTransform = none` models `GetGeoTransform` returning a failure code. -/
structure GDALDataset where
  id : Nat
  projPtr : Option Nat
  rasterXSize : Int
  rasterYSize : Int
  geoTransform : Option GeoTransform

/-- Embedding of `vsgGIS::compatibleDatasetProjections` (gdal_utils.cpp
lines 30-45).  Note the source initialises `rhs_projectionRef` from `lhs`
(line 35); the embedding reproduces that read faithfully. -/
def compatibleDatasetProjections (strMem : Nat → String) (lhs rhs : GDALDataset) : Bool :=
  if lhs.id = rhs.id then true
  else
    let lhs_projectionRef := lhs.projPtr
    let rhs_projectionRef := lhs.projPtr
    if lhs_projectionRef = rhs_projectionRef then true
    else
      match lhs_projectionRef, rhs_projectionRef with
      | none, _ => false
      | _, none => false
      | some lp, some rp => decide (strMem lp = strMem rp)

/-- Componentwise comparison loop of the two geotransforms
(gdal_utils.cpp lines 72-78): false as soon as one of the six components
differs, true otherwise. -/
def geoTransformsEqual (a b : GeoTransform) : Bool :=
  decide (a.g0 = b.g0) && decide (a.g1 = b.g1) && decide (a.g2 = b.g2) &&
  decide (a.g3 = b.g3) && decide (a.g4 = b.g4) && decide (a.g5 = b.g5)

/-- Embedding of `vsgGIS::compatibleDatasetProjectionsTransformAndSizes`
(gdal_utils.cpp lines 47-80).  The three geotransform branches mirror the
`numberWithValidTransforms` count of the source: 0 readable transforms is
compatible, 1 is incompatible, 2 compares componentwise. -/
def compatibleDatasetProjectionsTransformAndSizes (strMem : Nat → String) (lhs rhs : GDALDataset) : Bool :=
  if compatibleDatasetProjections strMem lhs rhs = false then false
  else if lhs.rasterXSize ≠ rhs.rasterXSize ∨ lhs.rasterYSize ≠ rhs.rasterYSize then false
  else
    match lhs.geoTransform, rhs.geoTransform with
    | none, none => true
    | some _, none => false
    | none, some _ => false
    | some lgt, some rgt => geoTransformsEqual lgt rgt

theorem compatibleDatasetProjections_true (strMem : Nat → String) (a b : GDALDataset) :
    compatibleDatasetProjections strMem a b = true := by
  unfold compatibleDatasetProjections
  split
  · rfl
  · simp

theorem geoTransformsEqual_iff (a b : GeoTransform) :
    geoTransformsEqual a b = true ↔ a = b := by
  cases a
  cases b
  simp [geoTransformsEqual, GeoTransform.mk.injEq]
  tauto

/-- C1: for every pair of dataset handles `a` and `b`,
`projectionsCompatible(a,b)` returns the same boolean as
`projectionsCompatible(b,a)`.  (In this code both calls in fact return
`true` on all inputs, because line 35 reads both projection references
from `lhs`, so the pointer-equality shortcut always fires.) -/
theorem compatibleDatasetProjections_symm (strMem : Nat → String) (a b : GDALDataset) :
    compatibleDatasetProjections strMem a b = compatibleDatasetProjections strMem b a := by
  rw [compatibleDatasetProjections_true, compatibleDatasetProjections_true]

/-- C7: `fullyCompatible(a,b) = true` implies `projectionsCompatible(a,b) = true`:
the stricter check returns false immediately unless the projection check
passes (line 49). -/
theorem fullyCompatible_implies_projectionsCompatible (strMem : Nat → String)
    (a b : GDALDataset)
    (h : compatibleDatasetProjectionsTransformAndSizes strMem a b = true) :
    compatibleDatasetProjections strMem a b = true := by
  by_contra hc
  have hfalse : compatibleDatasetProjections strMem a b = false := by
    simpa using hc
  rw [compatibleDatasetProjectionsTransformAndSizes, if_pos hfalse] at h
  exact Bool.false_ne_true h

theorem fullyCompatible_implies_projectionsCompatible_witness :
    compatibleDatasetProjections (fun _ => "") ⟨0, none, 1, 1, none⟩ ⟨0, none, 1, 1, none⟩ = true :=
  fullyCompatible_implies_projectionsCompatible (fun _ => "") _ _ rfl

/-- C6 (evaluation at the failing input): with two distinct handles where
exactly one projection reference is NULL — here `a` has no projection and
`b` points at the string `"WGS84"` — the claim says the check must return
`false`; the code returns `true`, because line 35 reads the rhs projection
reference from `lhs`, so both local pointers are NULL and the
pointer-equality shortcut at line 38 fires.  This contradicts the source
comment at line 40, "if one of the pointers is NULL then they are
incompatible". -/
theorem compatibleDatasetProjections_one_null_eval :
    compatibleDatasetProjections (fun _ => "WGS84") ⟨0, none, 1, 1, none⟩ ⟨1, some 7, 1, 1, none⟩ = true := by
  rfl

/-- C9: reflexivity.  For a dataset with a readable geotransform, both
`projectionsCompatible(a,a)` and `fullyCompatible(a,a)` return true: the
identity shortcut at line 32 fires, the sizes trivially match, and the two
geotransform reads succeed and agree componentwise. -/
theorem compatible_reflexive (strMem : Nat → String) (a : GDALDataset)
    (h : a.geoTransform.isSome = true) :
    compatibleDatasetProjections strMem a a = true ∧
    compatibleDatasetProjectionsTransformAndSizes strMem a a = true := by
  refine ⟨compatibleDatasetProjections_true strMem a a, ?_⟩
  rw [compatibleDatasetProjectionsTransformAndSizes,
    if_neg (by simp [compatibleDatasetProjections_true]), if_neg (by simp)]
  obtain ⟨gt, hgt⟩ := Option.isSome_iff_exists.mp h
  rw [hgt]
  exact (geoTransformsEqual_iff gt gt).mpr rfl

theorem compatible_reflexive_witness :
    (⟨0, some 3, 256, 256, some ⟨1, 0, 0, 0, 1, 0⟩⟩ : GDALDataset).geoTransform.isSome = true ∧
    (compatibleDatasetProjections (fun _ => "WGS84") ⟨0, some 3, 256, 256, some ⟨1, 0, 0, 0, 1, 0⟩⟩ ⟨0, some 3, 256, 256, some ⟨1, 0, 0, 0, 1, 0⟩⟩ = true ∧
     compatibleDatasetProjectionsTransformAndSizes (fun _ => "WGS84") ⟨0, some 3, 256, 256, some ⟨1, 0, 0, 0, 1, 0⟩⟩ ⟨0, some 3, 256, 256, some ⟨1, 0, 0, 0, 1, 0⟩⟩ = true) :=
  ⟨rfl, compatible_reflexive (fun _ => "WGS84") ⟨0, some 3, 256, 256, some ⟨1, 0, 0, 0, 1, 0⟩⟩ rfl⟩

/-- C10: for distinct handles, the result of `projectionsCompatible(a,b)`
does not depend on the projection reference of `b`: replacing `b`'s
projection pointer by any other value leaves the boolean unchanged (the
source never reads it — line 35 reads `lhs` twice). -/
theorem compatibleDatasetProjections_ignores_rhs_projection
    (strMem : Nat → String) (a b : GDALDataset) (q : Option Nat)
    (_h : a.id ≠ b.id) :
    compatibleDatasetProjections strMem a { b with projPtr := q } =
    compatibleDatasetProjections strMem a b := by
  rw [compatibleDatasetProjections_true, compatibleDatasetProjections_true]

theorem compatibleDatasetProjections_ignores_rhs_projection_witness :
    (0 : Nat) ≠ 1 ∧
    compatibleDatasetProjections (fun _ => "WGS84") ⟨0, some 3, 1, 1, none⟩ { (⟨1, some 5, 1, 1, none⟩ : GDALDataset) with projPtr := none } =
    compatibleDatasetProjections (fun _ => "WGS84") ⟨0, some 3, 1, 1, none⟩ ⟨1, some 5, 1, 1, none⟩ :=
  ⟨by decide,
   compatibleDatasetProjections_ignores_rhs_projection (fun _ => "WGS84") ⟨0, some 3, 1, 1, none⟩ ⟨1, some 5, 1, 1, none⟩ none (by decide)⟩

/-- C5: when the projection check passes and the raster sizes match,
`fullyCompatible` is decided by the number of successfully read
geotransforms: 0 readable transforms yields true, exactly 1 yields false,
and with 2 the result is true iff the transforms are equal in every one of
the six components (exact equality, no tolerance). -/
theorem fullyCompatible_transform_cases (strMem : Nat → String) (a b : GDALDataset)
    (hp : compatibleDatasetProjections strMem a b = true)
    (hx : a.rasterXSize = b.rasterXSize) (hy : a.rasterYSize = b.rasterYSize) :
    ((a.geoTransform = none ∧ b.geoTransform = none) →
      compatibleDatasetProjectionsTransformAndSizes strMem a b = true) ∧
    (a.geoTransform.isSome ≠ b.geoTransform.isSome →
      compatibleDatasetProjectionsTransformAndSizes strMem a b = false) ∧
    (∀ ga gb, a.geoTransform = some ga → b.geoTransform = some gb →
      (compatibleDatasetProjectionsTransformAndSizes strMem a b = true ↔ ga = gb)) := by
  have hsize : ¬ (a.rasterXSize ≠ b.rasterXSize ∨ a.rasterYSize ≠ b.rasterYSize) := by
    simp [hx, hy]
  rw [compatibleDatasetProjectionsTransformAndSizes, if_neg (by simp [hp]), if_neg hsize]
  refine ⟨?_, ?_, ?_⟩
  · rintro ⟨ha, hb⟩
    rw [ha, hb]
  · intro hone
    cases ha : a.geoTransform with
    | none =>
      cases hb : b.geoTransform with
      | none => rw [ha, hb] at hone; simp at hone
      | some gb => rfl
    | some ga =>
      cases hb : b.geoTransform with
      | none => rfl
      | some gb => rw [ha, hb] at hone; simp at hone
  · intro ga gb ha hb
    rw [ha, hb]
    exact geoTransformsEqual_iff ga gb

theorem fullyCompatible_transform_cases_witness :
    compatibleDatasetProjectionsTransformAndSizes (fun _ => "WGS84") ⟨0, some 3, 512, 512, some ⟨1, 0, 0, 0, 1, 0⟩⟩ ⟨1, some 3, 512, 512, some ⟨1, 0, 0, 0, 1, 2⟩⟩ = true ↔
    (⟨1, 0, 0, 0, 1, 0⟩ : GeoTransform) = ⟨1, 0, 0, 0, 1, 2⟩ :=
  (fullyCompatible_transform_cases (fun _ => "WGS84")
      ⟨0, some 3, 512, 512, some ⟨1, 0, 0, 0, 1, 0⟩⟩ ⟨1, some 3, 512, 512, some ⟨1, 0, 0, 0, 1, 2⟩⟩
      (compatibleDatasetProjections_true _ _ _) rfl rfl).2.2 _ _ rfl rfl

/-- A `vsg::dvec4`: four double components. -/
structure dvec4 where
  x : Rat
  y : Rat
  z : Rat
  w : Rat

/-- In-bounds component lookup of a `dvec4`: components carry indices 0..3,
any other index is out of range. -/
def dvec4.component? (v : dvec4) : Nat → Option Rat
  | 0 => some v.x
  | 1 => some v.y
  | 2 => some v.z
  | 3 => some v.w
  | _ => none

/-- `vsg::dvec4::operator[]` as the source uses it: an index in 0..3 reads
the matching component; an out-of-range index reads whatever value sits in
adjacent memory, supplied here as the explicit parameter `oob`. -/
def dvec4.read (v : dvec4) (oob : Rat) (i : Nat) : Rat :=
  (v.component? i).getD oob

/-- The numeric limits a `std::numeric_limits` specialisation supplies to
`default_value<T>`: whether `T` is an integer type, and its min/max
representable values (only consulted on the integer branch). -/
structure ScalarType where
  is_integer : Bool
  min : Int
  max : Int

def uint8_t : ScalarType := ⟨true, 0, 255⟩

def uint16_t : ScalarType := ⟨true, 0, 65535⟩

def int16_t : ScalarType := ⟨true, -32768, 32767⟩

def uint32_t : ScalarType := ⟨true, 0, 4294967295⟩

def int32_t : ScalarType := ⟨true, -2147483648, 2147483647⟩

def float32_t : ScalarType := ⟨false, 0, 0⟩

def float64_t : ScalarType := ⟨false, 0, 0⟩

/-- Embedding of `default_value<T>(double scale)` (gdal_utils.cpp lines
82-95): for an integer `T` the sign of `scale` selects min / max / zero;
for a floating `T` the value is cast through unchanged (floating values are
modelled as `Rat`, so the cast is the identity). -/
def default_value (T : ScalarType) (scale : Rat) : Rat :=
  if T.is_integer then
    if scale < 0 then (T.min : Rat)
    else if scale > 0 then (T.max : Rat)
    else 0
  else scale

/-- Embedding of `default_vec2<T>` (lines 97-101): components 0 and 1 of
the default vector, each pushed through `default_value`. -/
def default_vec2 (T : ScalarType) (value : dvec4) (oob : Rat) : List Rat :=
  [default_value T (value.read oob 0), default_value T (value.read oob 1)]

/-- Embedding of `default_vec3<T>` (lines 103-107): components 0, 1, 2. -/
def default_vec3 (T : ScalarType) (value : dvec4) (oob : Rat) : List Rat :=
  [default_value T (value.read oob 0), default_value T (value.read oob 1),
   default_value T (value.read oob 2)]

/-- Embedding of `default_vec4<T>` (lines 109-113).  The source reads
`value[0]`, `value[1]`, `value[2]`, `value[4]` — the fourth channel is
sourced from index 4, not 3. -/
def default_vec4 (T : ScalarType) (value : dvec4) (oob : Rat) : List Rat :=
  [default_value T (value.read oob 0), default_value T (value.read oob 1),
   default_value T (value.read oob 2), default_value T (value.read oob 4)]

/-- The GDAL raster data type enumeration (the seven types the dispatch
table covers plus the remaining members of `GDALDataType`). -/
inductive GDALDataType where
  | GDT_Unknown
  | GDT_Byte
  | GDT_UInt16
  | GDT_Int16
  | GDT_UInt32
  | GDT_Int32
  | GDT_Float32
  | GDT_Float64
  | GDT_CInt16
  | GDT_CInt32
  | GDT_CFloat32
  | GDT_CFloat64
deriving DecidableEq

open GDALDataType

/-- The Vulkan pixel-format tags used by the 28 dispatch entries. -/
inductive VkFormat where
  | R8_UNORM
  | R16_UNORM
  | R16_SNORM
  | R32_UINT
  | R32_SINT
  | R32_SFLOAT
  | R64_SFLOAT
  | R8G8_UNORM
  | R16G16_UNORM
  | R16G16_SNORM
  | R32G32_UINT
  | R32G32_SINT
  | R32G32_SFLOAT
  | R64G64_SFLOAT
  | R8G8B8_UNORM
  | R16G16B16_UNORM
  | R16G16B16_SNORM
  | R32G32B32_UINT
  | R32G32B32_SINT
  | R32G32B32_SFLOAT
  | R64G64B64_SFLOAT
  | R8G8B8A8_UNORM
  | R16G16B16A16_UNORM
  | R16G16B16A16_SNORM
  | R32G32B32A32_UINT
  | R32G32B32A32_SINT
  | R32G32B32A32_SFLOAT
  | R64G64B64A64_SFLOAT
deriving DecidableEq

open VkFormat

/-- A constructed `vsg` 2D array: `width*height` values, each value made of
`componentsPerPixel` scalars of the element type, a format tag, and the
per-pixel fill value the array was initialised with (one scalar per
channel). -/
structure Buffer where
  width : Nat
  height : Nat
  componentsPerPixel : Nat
  format : VkFormat
  fill : List Rat

/-- Embedding of `vsgGIS::createImage2D` (gdal_utils.cpp lines 116-161).
Each arm of the match is one entry of the `createMap` dispatch table keyed
by `(GDALDataType, int numComponents)`; a pair with no entry falls through
to the end-of-map check and yields an empty result.  `oob` is the
unspecified value an out-of-range `dvec4` read returns. -/
def createImage2D (width height : Nat) (numComponents : Int) (dataType : GDALDataType)
    (d : dvec4) (oob : Rat) : Option Buffer :=
  match dataType, numComponents with
  | GDT_Byte, 1 => some ⟨width, height, 1, R8_UNORM, [default_value uint8_t (d.read oob 0)]⟩
  | GDT_UInt16, 1 => some ⟨width, height, 1, R16_UNORM, [default_value uint16_t (d.read oob 0)]⟩
  | GDT_Int16, 1 => some ⟨width, height, 1, R16_SNORM, [default_value int16_t (d.read oob 0)]⟩
  | GDT_UInt32, 1 => some ⟨width, height, 1, R32_UINT, [default_value uint32_t (d.read oob 0)]⟩
  | GDT_Int32, 1 => some ⟨width, height, 1, R32_SINT, [default_value int32_t (d.read oob 0)]⟩
  | GDT_Float32, 1 => some ⟨width, height, 1, R32_SFLOAT, [default_value float32_t (d.read oob 0)]⟩
  | GDT_Float64, 1 => some ⟨width, height, 1, R64_SFLOAT, [default_value float64_t (d.read oob 0)]⟩
  | GDT_Byte, 2 => some ⟨width, height, 2, R8G8_UNORM, default_vec2 uint8_t d oob⟩
  | GDT_UInt16, 2 => some ⟨width, height, 2, R16G16_UNORM, default_vec2 uint16_t d oob⟩
  | GDT_Int16, 2 => some ⟨width, height, 2, R16G16_SNORM, default_vec2 int16_t d oob⟩
  | GDT_UInt32, 2 => some ⟨width, height, 2, R32G32_UINT, default_vec2 uint32_t d oob⟩
  | GDT_Int32, 2 => some ⟨width, height, 2, R32G32_SINT, default_vec2 int32_t d oob⟩
  | GDT_Float32, 2 => some ⟨width, height, 2, R32G32_SFLOAT, default_vec2 float32_t d oob⟩
  | GDT_Float64, 2 => some ⟨width, height, 2, R64G64_SFLOAT, default_vec2 float64_t d oob⟩
  | GDT_Byte, 3 => some ⟨width, height, 3, R8G8B8_UNORM, default_vec3 uint8_t d oob⟩
  | GDT_UInt16, 3 => some ⟨width, height, 3, R16G16B16_UNORM, default_vec3 uint16_t d oob⟩
  | GDT_Int16, 3 => some ⟨width, height, 3, R16G16B16_SNORM, default_vec3 int16_t d oob⟩
  | GDT_UInt32, 3 => some ⟨width, height, 3, R32G32B32_UINT, default_vec3 uint32_t d oob⟩
  | GDT_Int32, 3 => some ⟨width, height, 3, R32G32B32_SINT, default_vec3 int32_t d oob⟩
  | GDT_Float32, 3 => some ⟨width, height, 3, R32G32B32_SFLOAT, default_vec3 float32_t d oob⟩
  | GDT_Float64, 3 => some ⟨width, height, 3, R64G64B64_SFLOAT, default_vec3 float64_t d oob⟩
  | GDT_Byte, 4 => some ⟨width, height, 4, R8G8B8A8_UNORM, default_vec4 uint8_t d oob⟩
  | GDT_UInt16, 4 => some ⟨width, height, 4, R16G16B16A16_UNORM, default_vec4 uint16_t d oob⟩
  | GDT_Int16, 4 => some ⟨width, height, 4, R16G16B16A16_SNORM, default_vec4 int16_t d oob⟩
  | GDT_UInt32, 4 => some ⟨width, height, 4, R32G32B32A32_UINT, default_vec4 uint32_t d oob⟩
  | GDT_Int32, 4 => some ⟨width, height, 4, R32G32B32A32_SINT, default_vec4 int32_t d oob⟩
  | GDT_Float32, 4 => some ⟨width, height, 4, R32G32B32A32_SFLOAT, default_vec4 float32_t d oob⟩
  | GDT_Float64, 4 => some ⟨width, height, 4, R64G64B64A64_SFLOAT, default_vec4 float64_t d oob⟩
  | _, _ => none

/-- The documented (encoding, channelCount) → format-tag association: the
key set and format column of the `createMap` dispatch table. -/
def formatFor (dataType : GDALDataType) (numComponents : Int) : Option VkFormat :=
  match dataType, numComponents with
  | GDT_Byte, 1 => some R8_UNORM
  | GDT_UInt16, 1 => some R16_UNORM
  | GDT_Int16, 1 => some R16_SNORM
  | GDT_UInt32, 1 => some R32_UINT
  | GDT_Int32, 1 => some R32_SINT
  | GDT_Float32, 1 => some R32_SFLOAT
  | GDT_Float64, 1 => some R64_SFLOAT
  | GDT_Byte, 2 => some R8G8_UNORM
  | GDT_UInt16, 2 => some R16G16_UNORM
  | GDT_Int16, 2 => some R16G16_SNORM
  | GDT_UInt32, 2 => some R32G32_UINT
  | GDT_Int32, 2 => some R32G32_SINT
  | GDT_Float32, 2 => some R32G32_SFLOAT
  | GDT_Float64, 2 => some R64G64_SFLOAT
  | GDT_Byte, 3 => some R8G8B8_UNORM
  | GDT_UInt16, 3 => some R16G16B16_UNORM
  | GDT_Int16, 3 => some R16G16B16_SNORM
  | GDT_UInt32, 3 => some R32G32B32_UINT
  | GDT_Int32, 3 => some R32G32B32_SINT
  | GDT_Float32, 3 => some R32G32B32_SFLOAT
  | GDT_Float64, 3 => some R64G64B64_SFLOAT
  | GDT_Byte, 4 => some R8G8B8A8_UNORM
  | GDT_UInt16, 4 => some R16G16B16A16_UNORM
  | GDT_Int16, 4 => some R16G16B16A16_SNORM
  | GDT_UInt32, 4 => some R32G32B32A32_UINT
  | GDT_Int32, 4 => some R32G32B32A32_SINT
  | GDT_Float32, 4 => some R32G32B32A32_SFLOAT
  | GDT_Float64, 4 => some R64G64B64A64_SFLOAT
  | _, _ => none

/-- The seven scalar encodings the dispatch table covers. -/
def supportedEncoding : GDALDataType → Bool
  | GDT_Byte => true
  | GDT_UInt16 => true
  | GDT_Int16 => true
  | GDT_UInt32 => true
  | GDT_Int32 => true
  | GDT_Float32 => true
  | GDT_Float64 => true
  | _ => false

/-- C2: in the 4-channel path the fourth channel's fill value is not
sourced from component 3 of the default vector: `default_vec4` is
unchanged when component 3 (`w`) is replaced, index 4 is out of the valid
component range 0..3 of a `dvec4`, and the fourth entry of the produced
fill is the adjacent-memory value that out-of-range read returns — for
every invocation. -/
theorem default_vec4_reads_out_of_bounds (T : ScalarType) (v : dvec4) (w0 oob : Rat) :
    dvec4.component? v 4 = none ∧
    default_vec4 T { v with w := w0 } oob = default_vec4 T v oob ∧
    (default_vec4 T v oob).get? 3 = some (default_value T oob) :=
  ⟨rfl, rfl, rfl⟩

/-- C3: the per-channel default policy.  For an integer target type the
sign of `scale` alone selects the result: negative gives the type's
minimum representable value, positive gives its maximum, zero gives zero.
For a floating target type the result is the direct numeric cast of
`scale`. -/
theorem default_value_policy (T : ScalarType) (scale : Rat) :
    (T.is_integer = true →
      (scale < 0 → default_value T scale = T.min) ∧
      (scale > 0 → default_value T scale = T.max) ∧
      (scale = 0 → default_value T scale = 0)) ∧
    (T.is_integer = false → default_value T scale = scale) := by
  constructor
  · intro hi
    refine ⟨fun hneg => ?_, fun hpos => ?_, fun hzero => ?_⟩
    · simp [default_value, hi, hneg]
    · simp [default_value, hi, hpos, not_lt.mpr hpos.le]
    · simp [default_value, hi, hzero]
  · intro hi
    simp [default_value, hi]

theorem default_value_policy_witness :
    default_value int16_t (-1) = (int16_t.min : Rat) ∧
    default_value float64_t (5 / 2) = 5 / 2 :=
  ⟨((default_value_policy int16_t (-1)).1 rfl).1 (by norm_num),
   (default_value_policy float64_t (5 / 2)).2 rfl⟩

/-- C4: for every supported encoding and channel count in {1,2,3,4} the
factory returns a non-empty buffer whose scalar element count is
`width*height*channelCount`, whose format tag is the fixed association of
the dispatch table, and whose fill holds one scalar per channel. -/
theorem createImage2D_supported_complete (w h : Nat) (d : dvec4) (oob : Rat)
    (dt : GDALDataType) (nc : Int)
    (hdt : supportedEncoding dt = true)
    (hnc : nc = 1 ∨ nc = 2 ∨ nc = 3 ∨ nc = 4) :
    ∃ buf, createImage2D w h nc dt d oob = some buf ∧
      buf.width = w ∧ buf.height = h ∧
      buf.width * buf.height * buf.componentsPerPixel = w * h * nc.toNat ∧
      formatFor dt nc = some buf.format ∧
      buf.fill.length = buf.componentsPerPixel := by
  cases dt <;> first
    | (rcases hnc with h1 | h1 | h1 | h1 <;> subst h1 <;>
        exact ⟨_, rfl, rfl, rfl, rfl, rfl, rfl⟩)
    | exact absurd hdt (by decide)

theorem createImage2D_supported_complete_witness :
    ∃ buf, createImage2D 2 3 3 GDT_Byte ⟨0, 0, 0, 0⟩ 0 = some buf ∧
      buf.width = 2 ∧ buf.height = 3 ∧
      buf.width * buf.height * buf.componentsPerPixel = 2 * 3 * (3 : Int).toNat ∧
      formatFor GDT_Byte 3 = some buf.format ∧
      buf.fill.length = buf.componentsPerPixel :=
  createImage2D_supported_complete 2 3 ⟨0, 0, 0, 0⟩ 0 GDT_Byte 3 rfl
    (Or.inr (Or.inr (Or.inl rfl)))

/-- C8: the factory yields an empty result exactly when the
`(encoding, channelCount)` pair has no dispatch-table entry; every pair
with an entry produces a buffer, so the unsupported combination is the
only failure mode and no exception channel exists. -/
theorem createImage2D_none_iff_no_entry (w h : Nat) (nc : Int) (dt : GDALDataType)
    (d : dvec4) (oob : Rat) :
    createImage2D w h nc dt d oob = none ↔ formatFor dt nc = none := by
  unfold createImage2D formatFor
  split <;> simp_all
